import Mathlib

/-!
# OpaqueDEX — verification of the spec against the source

Shallow embedding of the OpaqueDEX repository:
* the `SwapContract` (`contract OpaqueSwap` in the Solidity source embedded in
  `src/deploy/opaqueSwap.ts`): fixed-rate confidential swap between two
  ERC-7984 tokens, rate 3100, arithmetic over `euint64`;
* the confidential ledger the swap consumes (`IERC7984` — external
  collaborator, modelled from the spec §4.2);
* the client-side decrypt handshake and balance-refresh logic of the React
  component `DexApp` (`src/unnamed/part_000`).

Machine integers: `euint64` values are `Nat`s; `FHE.mul` over `euint64`
wraps modulo `2 ^ 64`, made explicit with `% U64`.  `FHE.div` by a nonzero
constant cannot grow its argument, so no reduction is needed there.
-/

namespace OpaqueDEX

/-- `2 ^ 64`, the modulus of `euint64` arithmetic. -/
def U64 : Nat := 2 ^ 64

/-- `uint64 public constant WETH_TO_WUSDT_RATE = 3100;` -/
def WETH_TO_WUSDT_RATE : Nat := 3100

/-- Forward rate conversion: `FHE.mul(amountIn, WETH_TO_WUSDT_RATE)` over
`euint64` (wraps modulo `2 ^ 64`), from `swapWethForWusdt`. -/
def forward (x : Nat) : Nat := x * WETH_TO_WUSDT_RATE % U64

/-- Reverse rate conversion: `FHE.div(amountIn, WETH_TO_WUSDT_RATE)` over
`euint64` (truncating integer division), from `swapWusdtForWeth`. -/
def reverse (x : Nat) : Nat := x / WETH_TO_WUSDT_RATE

/-- Modelled from the spec: the repository's `wETH` / `wUSDT` token contracts
(OpenZeppelin confidential ERC-7984 instances) are not under `src/`; §4.2 of
the spec describes the ledger they implement.  Accounts are addresses
(`Nat`, with `0` the null address); `bal` is the per-account balance
mapping; `op owner delegate` is the expiry timestamp of the operator grant
from `owner` to `delegate` (`0` when no grant was ever made). -/
structure Ledger where
  bal : Nat → Nat
  op : Nat → Nat → Nat

/-- Modelled from the spec: `isOperator(owner, delegate)` — true iff an
unexpired operator grant exists, i.e. `currentTime < expiresAt` (§3, §4.2). -/
def isOperator (L : Ledger) (owner delegate now : Nat) : Bool :=
  now < L.op owner delegate

/-- Modelled from the spec: `confidentialTransfer(to, amount)` called by
`fromA` — debits the caller and credits `toA`, clamping against the available
balance, and returns the *actually* transferred amount (§4.2). -/
def confidentialTransfer (L : Ledger) (fromA toA amount : Nat) : Ledger × Nat :=
  let actual := min amount (L.bal fromA)
  let bal1 := Function.update L.bal fromA (L.bal fromA - actual)
  ({ L with bal := Function.update bal1 toA (bal1 toA + actual) }, actual)

/-- Modelled from the spec: `confidentialTransferFrom(from, to, amount)`
called by `caller` — requires `isOperator(from, caller)` at call time and
fails atomically otherwise; on success behaves like a clamped transfer out
of `from` and returns the actually transferred amount (§4.2). -/
def confidentialTransferFrom (L : Ledger) (caller fromA toA amount now : Nat) :
    Option (Ledger × Nat) :=
  if isOperator L fromA caller now then some (confidentialTransfer L fromA toA amount)
  else none

/-- The on-chain state the swap engine touches: the two token ledgers. -/
structure SwapState where
  weth : Ledger
  wusdt : Ledger

/-- `swapWethForWusdt(encryptedWethAmount, inputProof)` from
`src/deploy/opaqueSwap.ts` lines 64–78.  `input` is the result of
`FHE.fromExternal`: `none` models a malformed proof being rejected, `some
amountIn` the validated 64-bit cleartext.  `engine` is `address(this)`,
`caller` is `msg.sender`, `now` is `block.timestamp`.  The whole call
returns `none` when any sub-step reverts. -/
def swapWethForWusdt (s : SwapState) (engine caller now : Nat)
    (input : Option Nat) : Option (SwapState × Nat) :=
  match input with
  | none => none
  | some amountIn =>
    let amountOut := forward amountIn
    match confidentialTransferFrom s.weth engine caller engine amountIn now with
    | none => none
    | some p =>
      let q := confidentialTransfer s.wusdt engine caller amountOut
      some ({ weth := p.1, wusdt := q.1 }, q.2)

/-- `swapWusdtForWeth(encryptedUsdtAmount, inputProof)` from
`src/deploy/opaqueSwap.ts` lines 84–98: identical shape with the ledgers
swapped and the reverse rate conversion. -/
def swapWusdtForWeth (s : SwapState) (engine caller now : Nat)
    (input : Option Nat) : Option (SwapState × Nat) :=
  match input with
  | none => none
  | some amountIn =>
    let amountOut := reverse amountIn
    match confidentialTransferFrom s.wusdt engine caller engine amountIn now with
    | none => none
    | some p =>
      let q := confidentialTransfer s.weth engine caller amountOut
      some ({ weth := q.1, wusdt := p.1 }, q.2)

/-- The EVM call wrapper: a revert rolls the state back to the pre-call
snapshot (host-platform atomicity, spec §4.3/§5). -/
def callWethForWusdt (s : SwapState) (engine caller now : Nat)
    (input : Option Nat) : SwapState × Option Nat :=
  match swapWethForWusdt s engine caller now input with
  | none => (s, none)
  | some (s', out) => (s', some out)

/-- The EVM call wrapper for the reverse direction. -/
def callWusdtForWeth (s : SwapState) (engine caller now : Nat)
    (input : Option Nat) : SwapState × Option Nat :=
  match swapWusdtForWeth s engine caller now input with
  | none => (s, none)
  | some (s', out) => (s', some out)

/-! ## The `OpaqueSwap` constructor (`src/deploy/opaqueSwap.ts` lines 52–58) -/

/-- The constructed contract: the two immutable token references. -/
structure SwapContract where
  wETH : Nat
  wUSDT : Nat
  deriving DecidableEq, Repr

/-- `error InvalidTokenAddress();` -/
inductive ContractError where
  | InvalidTokenAddress
  deriving DecidableEq, Repr

/-- `constructor(address wethAddress, address wusdtAddress)` — reverts with
`InvalidTokenAddress` when either argument is `address(0)`, otherwise stores
both addresses in the immutable fields. -/
def constructorSwap (wethAddress wusdtAddress : Nat) :
    Except ContractError SwapContract :=
  if wethAddress = 0 ∨ wusdtAddress = 0 then .error .InvalidTokenAddress
  else .ok { wETH := wethAddress, wUSDT := wusdtAddress }

/-! ## Client-side `DexApp` (`src/unnamed/part_000`) -/

/-- `type TokenKey = 'weth' | 'wusdt'` -/
inductive TokenKey where
  | weth
  | wusdt
  deriving DecidableEq, Repr

/-- `const ZERO_HANDLE = '0x00…00'` (line 13): the reserved
"uninitialized balance" sentinel handle. -/
def ZERO_HANDLE : String :=
  "0x0000000000000000000000000000000000000000000000000000000000000000"

/-- `const DECIMALS = 6` (line 14). -/
def DECIMALS : Nat := 6

/-- Model of viem's `formatUnits`: decimal rendering of `v` with `d`
fractional digits, trailing zeros of the fraction trimmed. -/
def formatUnits (v d : Nat) : String :=
  let intPart := v / 10 ^ d
  let frac := v % 10 ^ d
  let digits := toString frac
  let padded := List.replicate (d - digits.length) '0' ++ digits.toList
  let trimmed := ((padded.reverse.dropWhile fun c => c == '0')).reverse
  if trimmed.isEmpty then toString intPart
  else toString intPart ++ "." ++ String.mk trimmed

/-- `formatClear` (lines 346–351): a `null` decrypted balance renders as the
masked placeholder `***`, a revealed one via `formatUnits`. -/
def formatClear : Option Nat → String
  | none => "***"
  | some value => formatUnits value DECIMALS

/-- The React component state of `DexApp` that the claims touch (lines
46–64).  Record fields keyed by `TokenKey` are functions. -/
structure AppState where
  encryptedBalances : TokenKey → Option String
  decryptedBalances : TokenKey → Option Nat
  operatorStatus : TokenKey → Bool
  isRefreshing : Bool
  isDecrypting : Option TokenKey
  statusMessage : Option String

/-- `resetDecrypted` (lines 85–87): both decrypted balances become `null`. -/
def resetDecrypted (st : AppState) : AppState :=
  { st with decryptedBalances := fun _ => none }

/-- The data the four parallel reads of `refreshOnChainData` fetch
(lines 97–122). -/
structure ChainData where
  wethBalance : String
  wusdtBalance : String
  wethOperator : Bool
  wusdtOperator : Bool

/-- `refreshOnChainData` (lines 89–138), with the network outcome made
explicit: `fetched = none` models the reads throwing.  On success the
encrypted balances and operator flags are replaced and `resetDecrypted`
runs; on failure only the status message changes.  `isRefreshing` is set
and cleared inside the same call, so it ends `false` either way. -/
def refreshOnChainData (fetched : Option ChainData) (st : AppState) : AppState :=
  match fetched with
  | none => { st with statusMessage := some "Failed to refresh on-chain data",
                      isRefreshing := false }
  | some d =>
    resetDecrypted
      { st with
        encryptedBalances := fun t => match t with
          | .weth => some d.wethBalance
          | .wusdt => some d.wusdtBalance,
        operatorStatus := fun t => match t with
          | .weth => d.wethOperator
          | .wusdt => d.wusdtOperator,
        statusMessage := none,
        isRefreshing := false }

/-! ## The decrypt handshake, sequential run (`decryptBalance`, lines 146–203) -/

/-- The environment one `decryptBalance` run observes: whether wallet,
addresses and the fhEVM instance are present (the guard on line 147),
whether `signerPromise` resolves to a signer, whether the user grants the
typed-data signature, and what the decryption service returns (`none`
models a thrown error). -/
structure DecryptEnv where
  connected : Bool
  signerAvailable : Bool
  signOk : Bool
  serviceValue : Option Nat

/-- The externally observable actions of one `decryptBalance` run, in
order: flipping the busy flag, keypair generation, building the EIP-712
payload, requesting the typed-data signature, and the `userDecrypt`
service call. -/
inductive DecryptAct where
  | setBusy (t : TokenKey)
  | generateKeypair
  | createEIP712
  | signTypedData
  | userDecrypt
  | clearBusy
  deriving DecidableEq, Repr

/-- `decryptBalance(token)` (lines 146–203) as one sequential run: the final
component state together with the trace of observable actions.  The guard
order follows the source: connection guard (147), missing / all-zero handle
guard (152–156), signer guard (158–162), then `setIsDecrypting(token)` and
the crypto steps, with the `finally` clearing the busy flag. -/
def decryptBalance (env : DecryptEnv) (st : AppState) (token : TokenKey) :
    AppState × List DecryptAct :=
  if !env.connected then
    let msg := "Connect wallet and initialize encryption to decrypt balances."
    ({ st with statusMessage := some msg }, [])
  else
    match st.encryptedBalances token with
    | none =>
      ({ st with statusMessage := some "Encrypted balance not available yet." }, [])
    | some handle =>
      if handle = ZERO_HANDLE then
        ({ st with statusMessage := some "Encrypted balance not available yet." }, [])
      else if !env.signerAvailable then
        ({ st with statusMessage := some "Signer not available." }, [])
      else if !env.signOk then
        ({ st with statusMessage := some "Failed to decrypt balance",
                   isDecrypting := none },
         [.setBusy token, .generateKeypair, .createEIP712, .signTypedData, .clearBusy])
      else
        match env.serviceValue with
        | none =>
          ({ st with statusMessage := some "Failed to decrypt balance",
                     isDecrypting := none },
           [.setBusy token, .generateKeypair, .createEIP712, .signTypedData,
            .userDecrypt, .clearBusy])
        | some value =>
          ({ st with statusMessage := none,
                     decryptedBalances := fun t =>
                       if t = token then some value else st.decryptedBalances t,
                     isDecrypting := none },
           [.setBusy token, .generateKeypair, .createEIP712, .signTypedData,
            .userDecrypt, .clearBusy])

/-! ## The EIP-712 decrypt authorization payload (lines 168–192) -/

/-- The unit a time field of the payload is denominated in.  The session
start time is `Math.floor(Date.now() / 1000)` — a Unix timestamp in
seconds — while the validity duration is the SDK's `durationDays`
parameter, denominated in days. -/
inductive TimeUnit where
  | seconds
  | days
  deriving DecidableEq, Repr

/-- The authorization payload `createEIP712(publicKey, contractAddresses,
startTimeStamp, durationDays)` is built from (lines 168–174), as signed and
then resubmitted to `userDecrypt` (lines 183–192). -/
structure DecryptAuthPayload where
  publicKey : Nat
  contractAddresses : List Nat
  startTimeStamp : Nat
  startTimeUnit : TimeUnit
  durationDays : Nat
  durationUnit : TimeUnit
  deriving DecidableEq, Repr

/-- Building the payload inside `decryptBalance`: `startTimeStamp =
Math.floor(Date.now() / 1000)` (seconds), `durationDays = '10'` (days),
and the single target contract address (lines 169–174). -/
def buildDecryptAuthPayload (publicKey contractAddress nowMillis : Nat) :
    DecryptAuthPayload :=
  { publicKey := publicKey
    contractAddresses := [contractAddress]
    startTimeStamp := nowMillis / 1000
    startTimeUnit := .seconds
    durationDays := 10
    durationUnit := .days }

/-! ## The decrypt flow as an interleaved transition system

`decryptBalance` is `async`: it suspends at `await signerPromise`
(line 158), at `await signer.signTypedData(...)` (line 175) and at `await
instance.userDecrypt(...)` (line 183).  Other events — in particular
further clicks on the per-token Decrypt buttons (lines 424–430), which are
enabled exactly when `isDecrypting !== token` — can run while a call is
suspended.  The model below has one step per suspension point, with React
state updates applied eagerly (the most favourable rendering model for the
code). -/

/-- Where one suspended `decryptBalance` call stands. -/
inductive Phase where
  /-- Suspended at `await signerPromise` (line 158); `isDecrypting` has not
  been set yet. -/
  | awaitingSigner
  /-- `setIsDecrypting(token)` ran (line 164); suspended at
  `signer.signTypedData` (line 175). -/
  | awaitingSignature
  /-- The `userDecrypt` service request is in flight (line 183). -/
  | awaitingService
  /-- The `finally` block ran (`setIsDecrypting(null)`, line 201). -/
  | finished
  deriving DecidableEq, Repr

/-- One (possibly suspended) `decryptBalance` call. -/
structure Session where
  token : TokenKey
  phase : Phase
  deriving DecidableEq, Repr

/-- The component state the interleaving model tracks: the shared
`isDecrypting` flag and every `decryptBalance` call started so far
(index = session id). -/
structure DexUI where
  isDecrypting : Option TokenKey
  sessions : List Session
  deriving DecidableEq, Repr

/-- `disabled={isDecrypting === token || !instance || !isConnected}`
(line 427), with wallet and instance present: the Decrypt button for
`t` accepts a click iff `isDecrypting ≠ some t`. -/
def decryptButtonEnabled (ui : DexUI) (t : TokenKey) : Bool :=
  ui.isDecrypting ≠ some t

/-- Scheduler events: a user click on a Decrypt button, or one of the three
awaited promises of session `i` resolving. -/
inductive UIEvent where
  | click (t : TokenKey)
  | signerReady (i : Nat)
  | signatureReady (i : Nat)
  | serviceResponse (i : Nat)
  deriving DecidableEq, Repr

/-- One scheduler step; `none` when the event is not enabled (a click on a
disabled button, or a resolution for a session not at that suspension
point).  A click starts a new `decryptBalance` call, which runs to the
signer await without touching `isDecrypting`; the signer resolving runs
`setIsDecrypting(token)` and the synchronous crypto steps up to the
signature await; the signature resolving issues the `userDecrypt` request;
the service responding runs the `finally` (`setIsDecrypting(null)`). -/
def uiStep (ui : DexUI) : UIEvent → Option DexUI
  | .click t =>
    if decryptButtonEnabled ui t then
      some { ui with sessions := ui.sessions ++ [{ token := t, phase := .awaitingSigner }] }
    else none
  | .signerReady i =>
    match ui.sessions[i]? with
    | some s =>
      if s.phase = .awaitingSigner then
        some { isDecrypting := some s.token,
               sessions := ui.sessions.set i { s with phase := .awaitingSignature } }
      else none
    | none => none
  | .signatureReady i =>
    match ui.sessions[i]? with
    | some s =>
      if s.phase = .awaitingSignature then
        some { ui with sessions := ui.sessions.set i { s with phase := .awaitingService } }
      else none
    | none => none
  | .serviceResponse i =>
    match ui.sessions[i]? with
    | some s =>
      if s.phase = .awaitingService then
        some { isDecrypting := none,
               sessions := ui.sessions.set i { s with phase := .finished } }
      else none
    | none => none

/-- Run a sequence of scheduler events; `none` if any event is not enabled
at its point in the sequence. -/
def runUI : DexUI → List UIEvent → Option DexUI
  | ui, [] => some ui
  | ui, e :: es =>
    match uiStep ui e with
    | none => none
    | some ui' => runUI ui' es

/-- The fresh component state: not busy, no call started. -/
def initUI : DexUI := { isDecrypting := none, sessions := [] }

/-- How many `userDecrypt` requests for token `t` are in flight. -/
def inFlightCount (ui : DexUI) (t : TokenKey) : Nat :=
  (ui.sessions.filter fun s => s.token = t ∧ s.phase = .awaitingService).length

/-! ## Concrete scenario instances

Used by the counterexamples and witnesses below.  Account `1` is the user,
account `2` the deployed swap engine; timestamps are small naturals. -/

/-- The user holds 5 wETH units and no wUSDT; the engine holds 10 ^ 7 wUSDT
units of liquidity; the engine holds an unexpired wETH operator grant from
the user (expiry 100). -/
def sampleForward : SwapState :=
  { weth := { bal := fun a => if a = 1 then 5 else 0,
              op := fun owner delegate => if owner = 1 ∧ delegate = 2 then 100 else 0 },
    wusdt := { bal := fun a => if a = 2 then 10000000 else 0,
               op := fun _ _ => 0 } }

/-- Result of a successful forward swap of 3 units at time 5 on
`sampleForward` (the default is never used: the call succeeds). -/
def sampleForwardRun : SwapState × Nat :=
  (swapWethForWusdt sampleForward 2 1 5 (some 3)).getD (sampleForward, 0)

/-- The user holds 9300 wUSDT units; the engine holds 10 wETH units of
liquidity and an unexpired wUSDT operator grant from the user. -/
def sampleReverse : SwapState :=
  { weth := { bal := fun a => if a = 2 then 10 else 0,
              op := fun _ _ => 0 },
    wusdt := { bal := fun a => if a = 1 then 9300 else 0,
               op := fun owner delegate => if owner = 1 ∧ delegate = 2 then 100 else 0 } }

/-- Result of a successful reverse swap of 9300 units at time 5 on
`sampleReverse`. -/
def sampleReverseRun : SwapState × Nat :=
  (swapWusdtForWeth sampleReverse 2 1 5 (some 9300)).getD (sampleReverse, 0)

/-- The user holds only 1 wETH unit but will request a swap of 2; the
engine holds ample wUSDT liquidity and an unexpired operator grant. -/
def shortBalance : SwapState :=
  { weth := { bal := fun a => if a = 1 then 1 else 0,
              op := fun owner delegate => if owner = 1 ∧ delegate = 2 then 100 else 0 },
    wusdt := { bal := fun a => if a = 2 then 1000000 else 0,
               op := fun _ _ => 0 } }

/-- The spec's truncation scenario: the user holds 3099 wUSDT units (below
the rate constant) and no wETH; the engine holds wETH liquidity and an
unexpired wUSDT operator grant. -/
def truncScenario : SwapState :=
  { weth := { bal := fun a => if a = 2 then 10 else 0,
              op := fun _ _ => 0 },
    wusdt := { bal := fun a => if a = 1 then 3099 else 0,
               op := fun owner delegate => if owner = 1 ∧ delegate = 2 then 100 else 0 } }

/-- The interleaving of Decrypt-button clicks that defeats the shared
`isDecrypting` flag: start a wETH decrypt, then a wUSDT decrypt (its button
is enabled, and it overwrites the flag), then a second wETH decrypt (the
wETH button is enabled again because the flag now reads `wusdt`). -/
def racingClicks : List UIEvent :=
  [.click .weth, .signerReady 0, .signatureReady 0,
   .click .wusdt, .signerReady 1, .signatureReady 1,
   .click .weth, .signerReady 2, .signatureReady 2]

/-- A connected environment whose decrypt service would answer 42. -/
def sampleEnv : DecryptEnv :=
  { connected := true, signerAvailable := true, signOk := true,
    serviceValue := some 42 }

/-- A component state whose stored wETH handle is the all-zero sentinel and
whose wUSDT balance was already revealed. -/
def zeroHandleState : AppState :=
  { encryptedBalances := fun _ => some ZERO_HANDLE
    decryptedBalances := fun t => match t with | .weth => none | .wusdt => some 7
    operatorStatus := fun _ => true
    isRefreshing := false
    isDecrypting := none
    statusMessage := none }

/-- Freshly fetched on-chain data for the refresh scenario. -/
def sampleChainData : ChainData :=
  { wethBalance := "0xabc", wusdtBalance := "0xdef",
    wethOperator := true, wusdtOperator := false }

/-! ## Ledger helper lemmas -/

lemma sum_update_mem (f : Nat → Nat) (S : Finset Nat) (x : Nat) (hx : x ∈ S) (v : Nat) :
    ∑ a ∈ S, Function.update f x v a = ∑ a ∈ S, f a - f x + v := by
  rw [Finset.sum_update_of_mem hx, ← Finset.erase_eq]
  have h1 := Finset.add_sum_erase S f hx
  have h2 : f x ≤ ∑ a ∈ S, f a :=
    Finset.single_le_sum (fun i _ => Nat.zero_le (f i)) hx
  omega

lemma confidentialTransfer_snd (L : Ledger) (fromA toA amount : Nat) :
    (confidentialTransfer L fromA toA amount).2 = min amount (L.bal fromA) := rfl

lemma confidentialTransfer_bal_from (L : Ledger) (fromA toA amount : Nat)
    (h : fromA ≠ toA) :
    (confidentialTransfer L fromA toA amount).1.bal fromA
      = L.bal fromA - min amount (L.bal fromA) := by
  simp [confidentialTransfer, Function.update_noteq h]

lemma confidentialTransfer_bal_to (L : Ledger) (fromA toA amount : Nat)
    (h : toA ≠ fromA) :
    (confidentialTransfer L fromA toA amount).1.bal toA
      = L.bal toA + min amount (L.bal fromA) := by
  simp [confidentialTransfer, Function.update_noteq h]

lemma confidentialTransfer_bal_other (L : Ledger) (fromA toA amount x : Nat)
    (h1 : x ≠ fromA) (h2 : x ≠ toA) :
    (confidentialTransfer L fromA toA amount).1.bal x = L.bal x := by
  simp [confidentialTransfer, Function.update_noteq h1, Function.update_noteq h2]

/-- A clamped transfer between two accounts of `S` conserves the total
balance over `S`. -/
lemma confidentialTransfer_sum (L : Ledger) (fromA toA amount : Nat)
    (S : Finset Nat) (hf : fromA ∈ S) (ht : toA ∈ S) :
    ∑ a ∈ S, (confidentialTransfer L fromA toA amount).1.bal a
      = ∑ a ∈ S, L.bal a := by
  unfold confidentialTransfer
  simp only
  have hle : min amount (L.bal fromA) ≤ L.bal fromA := Nat.min_le_right _ _
  have hsum1 := sum_update_mem L.bal S fromA hf
    (L.bal fromA - min amount (L.bal fromA))
  have hsum2 := sum_update_mem
    (Function.update L.bal fromA (L.bal fromA - min amount (L.bal fromA)))
    S toA ht
    (Function.update L.bal fromA (L.bal fromA - min amount (L.bal fromA)) toA
      + min amount (L.bal fromA))
  have hx : L.bal fromA ≤ ∑ a ∈ S, L.bal a :=
    Finset.single_le_sum (fun i _ => Nat.zero_le (L.bal i)) hf
  have hy : Function.update L.bal fromA
        (L.bal fromA - min amount (L.bal fromA)) toA
      ≤ ∑ a ∈ S, Function.update L.bal fromA
          (L.bal fromA - min amount (L.bal fromA)) a :=
    Finset.single_le_sum
      (fun i _ => Nat.zero_le (Function.update L.bal fromA
        (L.bal fromA - min amount (L.bal fromA)) i)) ht
  omega

lemma confidentialTransferFrom_some (L : Ledger) (caller fromA toA amount now : Nat)
    (p : Ledger × Nat)
    (h : confidentialTransferFrom L caller fromA toA amount now = some p) :
    isOperator L fromA caller now = true ∧ p = confidentialTransfer L fromA toA amount := by
  by_cases hop : isOperator L fromA caller now
  · simp only [confidentialTransferFrom, hop, if_true, Option.some.injEq] at h
    exact ⟨hop, h.symm⟩
  · simp [confidentialTransferFrom, hop] at h

/-- Shape of a successful forward swap: the operator guard held, the wETH
leg is the clamped transfer-from of the requested amount, the wUSDT leg is
the clamped transfer of `forward` of the *requested* amount, and the
returned value is the second leg's actual. -/
lemma swapWethForWusdt_some (s : SwapState) (engine caller now a : Nat)
    (s' : SwapState) (out : Nat)
    (h : swapWethForWusdt s engine caller now (some a) = some (s', out)) :
    isOperator s.weth caller engine now = true ∧
    s' = { weth := (confidentialTransfer s.weth caller engine a).1,
           wusdt := (confidentialTransfer s.wusdt engine caller (forward a)).1 } ∧
    out = (confidentialTransfer s.wusdt engine caller (forward a)).2 := by
  simp only [swapWethForWusdt] at h
  cases heq : confidentialTransferFrom s.weth engine caller engine a now with
  | none => rw [heq] at h; simp at h
  | some p =>
    rw [heq] at h
    obtain ⟨hop, hp⟩ := confidentialTransferFrom_some _ _ _ _ _ _ _ heq
    simp only [Option.some.injEq, Prod.mk.injEq] at h
    obtain ⟨h1, h2⟩ := h
    subst hp
    exact ⟨hop, h1.symm, h2.symm⟩

/-- Shape of a successful reverse swap. -/
lemma swapWusdtForWeth_some (s : SwapState) (engine caller now a : Nat)
    (s' : SwapState) (out : Nat)
    (h : swapWusdtForWeth s engine caller now (some a) = some (s', out)) :
    isOperator s.wusdt caller engine now = true ∧
    s' = { weth := (confidentialTransfer s.weth engine caller (reverse a)).1,
           wusdt := (confidentialTransfer s.wusdt caller engine a).1 } ∧
    out = (confidentialTransfer s.weth engine caller (reverse a)).2 := by
  simp only [swapWusdtForWeth] at h
  cases heq : confidentialTransferFrom s.wusdt engine caller engine a now with
  | none => rw [heq] at h; simp at h
  | some p =>
    rw [heq] at h
    obtain ⟨hop, hp⟩ := confidentialTransferFrom_some _ _ _ _ _ _ _ heq
    simp only [Option.some.injEq, Prod.mk.injEq] at h
    obtain ⟨h1, h2⟩ := h
    subst hp
    exact ⟨hop, h1.symm, h2.symm⟩

/-! ## Claims -/

/-- **C1** (counterexample): on `shortBalance` the user requests a forward
swap of 2 wETH units while holding only 1.  The wETH leg is clamped, so
the amount actually debited is `1` (balance `1 → 0`), but the user's wUSDT
balance increases by `forward 2 = 6200`, not by the
`1 * 3100 = 3100` the claim demands. -/
theorem C1_counterexample :
    (swapWethForWusdt shortBalance 2 1 5 (some 2)).map
        (fun p => (p.1.weth.bal 1, p.1.wusdt.bal 1, p.2)) = some (0, 6200, 6200) ∧
    shortBalance.weth.bal 1 = 1 ∧ shortBalance.wusdt.bal 1 = 0 ∧
    (1 - 0) * 3100 ≠ 6200 - 0 := by decide

/-- **C1** (amended): after a successful `swapWethForWusdt(a)` the caller's
wETH balance decreases by exactly the amount actually debited
(`min a (balance)`), the caller's wUSDT balance increases by exactly the
amount actually transferred out of the engine — `forward` of the
*requested* amount, clamped to the engine's wUSDT balance — and the total
supply of each asset over any account set containing caller and engine is
unchanged. -/
theorem C1_swap_conservation (s : SwapState) (engine caller now a : Nat)
    (s' : SwapState) (out : Nat) (hne : caller ≠ engine)
    (h : swapWethForWusdt s engine caller now (some a) = some (s', out)) :
    s'.weth.bal caller = s.weth.bal caller - min a (s.weth.bal caller) ∧
    s'.wusdt.bal caller = s.wusdt.bal caller + min (forward a) (s.wusdt.bal engine) ∧
    ∀ S : Finset Nat, caller ∈ S → engine ∈ S →
      ((∑ x ∈ S, s'.weth.bal x) = ∑ x ∈ S, s.weth.bal x ∧
       (∑ x ∈ S, s'.wusdt.bal x) = ∑ x ∈ S, s.wusdt.bal x) := by
  obtain ⟨-, hs', -⟩ := swapWethForWusdt_some s engine caller now a s' out h
  subst hs'
  refine ⟨confidentialTransfer_bal_from _ _ _ _ hne,
          confidentialTransfer_bal_to _ _ _ _ hne,
          fun S hc he => ⟨confidentialTransfer_sum _ _ _ _ S hc he,
                          confidentialTransfer_sum _ _ _ _ S he hc⟩⟩

/-- Witness for `C1_swap_conservation`: the sample forward swap of 3 units. -/
theorem C1_swap_conservation_witness :
    sampleForwardRun.1.weth.bal 1
        = sampleForward.weth.bal 1 - min 3 (sampleForward.weth.bal 1) ∧
    sampleForwardRun.1.wusdt.bal 1
        = sampleForward.wusdt.bal 1 + min (forward 3) (sampleForward.wusdt.bal 2) ∧
    ((∑ x ∈ ({1, 2} : Finset Nat), sampleForwardRun.1.weth.bal x)
        = ∑ x ∈ ({1, 2} : Finset Nat), sampleForward.weth.bal x ∧
     (∑ x ∈ ({1, 2} : Finset Nat), sampleForwardRun.1.wusdt.bal x)
        = ∑ x ∈ ({1, 2} : Finset Nat), sampleForward.wusdt.bal x) := by
  have h := C1_swap_conservation sampleForward 2 1 5 3
    sampleForwardRun.1 sampleForwardRun.2 (by decide) rfl
  exact ⟨h.1, h.2.1, h.2.2 {1, 2} (by decide) (by decide)⟩

/-- **C2**: each swap direction returns exactly the encrypted amount the
outgoing `confidentialTransfer` reports as actually transferred, and that
amount is `forward` (resp. `reverse`) of the *originally requested*
`amountIn` clamped only by the engine's own pre-call balance — it does not
depend on the clamped actually-transferred-in amount. -/
theorem C2_returns_actual_out (s : SwapState) (engine caller now a : Nat)
    (s' : SwapState) (out : Nat) :
    (swapWethForWusdt s engine caller now (some a) = some (s', out) →
      out = (confidentialTransfer s.wusdt engine caller (forward a)).2 ∧
      out = min (forward a) (s.wusdt.bal engine)) ∧
    (swapWusdtForWeth s engine caller now (some a) = some (s', out) →
      out = (confidentialTransfer s.weth engine caller (reverse a)).2 ∧
      out = min (reverse a) (s.weth.bal engine)) := by
  constructor
  · intro h
    obtain ⟨-, -, hout⟩ := swapWethForWusdt_some s engine caller now a s' out h
    exact ⟨hout, hout.trans (confidentialTransfer_snd _ _ _ _)⟩
  · intro h
    obtain ⟨-, -, hout⟩ := swapWusdtForWeth_some s engine caller now a s' out h
    exact ⟨hout, hout.trans (confidentialTransfer_snd _ _ _ _)⟩

/-- Witness for `C2_returns_actual_out`: both sample swaps. -/
theorem C2_returns_actual_out_witness :
    sampleForwardRun.2 = min (forward 3) (sampleForward.wusdt.bal 2) ∧
    sampleReverseRun.2 = min (reverse 9300) (sampleReverse.weth.bal 2) :=
  ⟨((C2_returns_actual_out sampleForward 2 1 5 3
      sampleForwardRun.1 sampleForwardRun.2).1 rfl).2,
   ((C2_returns_actual_out sampleReverse 2 1 5 9300
      sampleReverseRun.1 sampleReverseRun.2).2 rfl).2⟩

/-- **C3**: the reverse conversion is exact truncating division —
`reverse x = x / 3100` for every `x`, zero below the rate — and the
end-to-end truncation scenario: a reverse swap of 3099 wUSDT units debits
the full 3099 while crediting 0 wETH (and returns 0). -/
theorem C3_reverse_floor_div :
    (∀ x : Nat, reverse x = x / 3100 ∧ (x < 3100 → reverse x = 0)) ∧
    truncScenario.wusdt.bal 1 = 3099 ∧ truncScenario.weth.bal 1 = 0 ∧
    (swapWusdtForWeth truncScenario 2 1 5 (some 3099)).map
        (fun p => (p.1.weth.bal 1, p.1.wusdt.bal 1, p.2)) = some (0, 0, 0) :=
  ⟨fun x => ⟨rfl, fun h => Nat.div_eq_of_lt h⟩, by decide, by decide, by decide⟩

/-- Witness for `C3_reverse_floor_div`: the inner truncation hypothesis at
`x = 3099`. -/
theorem C3_reverse_floor_div_witness : 3099 < 3100 ∧ reverse 3099 = 0 :=
  ⟨by decide, (C3_reverse_floor_div.1 3099).2 (by decide)⟩

/-- **C4** (counterexample): over `euint64` the forward multiplication
wraps: `forward (2 ^ 63) = 2 ^ 63 * 3100 % 2 ^ 64 = 0`, so the round trip
collapses to 0 and the claim's unrestricted `∀ amountIn ≥ 0` fails. -/
theorem C4_counterexample : ¬ reverse (forward (2 ^ 63)) = 2 ^ 63 := by decide

/-- **C4** (amended): `reverse (forward amountIn) = amountIn` for every
`amountIn` whose forward product does not overflow `euint64`
(`amountIn * 3100 < 2 ^ 64`). -/
theorem C4_round_trip (a : Nat) (h : a * WETH_TO_WUSDT_RATE < U64) :
    reverse (forward a) = a := by
  unfold forward reverse
  rw [Nat.mod_eq_of_lt h]
  unfold WETH_TO_WUSDT_RATE
  omega

/-- Witness for `C4_round_trip` at `amountIn = 7`. -/
theorem C4_round_trip_witness :
    7 * WETH_TO_WUSDT_RATE < U64 ∧ reverse (forward 7) = 7 :=
  ⟨by decide, C4_round_trip 7 (by decide)⟩

/-- **C5**: a swap call in either direction that fails at any sub-step
leaves both asset balance mappings exactly as before the call (the EVM
call wrapper returns the pre-call snapshot), and the failing sub-steps are
exactly a malformed proof (`input = none`) or a missing/expired operator
grant; a transfer-in shortfall clamps rather than failing. -/
theorem C5_atomicity (s : SwapState) (engine caller now : Nat)
    (input : Option Nat) :
    (swapWethForWusdt s engine caller now input = none →
      ∀ acct,
        (callWethForWusdt s engine caller now input).1.weth.bal acct
          = s.weth.bal acct ∧
        (callWethForWusdt s engine caller now input).1.wusdt.bal acct
          = s.wusdt.bal acct) ∧
    (swapWusdtForWeth s engine caller now input = none →
      ∀ acct,
        (callWusdtForWeth s engine caller now input).1.weth.bal acct
          = s.weth.bal acct ∧
        (callWusdtForWeth s engine caller now input).1.wusdt.bal acct
          = s.wusdt.bal acct) ∧
    (swapWethForWusdt s engine caller now input = none ↔
      input = none ∨ isOperator s.weth caller engine now = false) ∧
    (swapWusdtForWeth s engine caller now input = none ↔
      input = none ∨ isOperator s.wusdt caller engine now = false) := by
  refine ⟨fun h acct => ?_, fun h acct => ?_, ?_, ?_⟩
  · simp [callWethForWusdt, h]
  · simp [callWusdtForWeth, h]
  · cases input with
    | none => simp [swapWethForWusdt]
    | some a =>
      by_cases hop : isOperator s.weth caller engine now
      · simp [swapWethForWusdt, confidentialTransferFrom, hop]
      · simp [swapWethForWusdt, confidentialTransferFrom, hop]
  · cases input with
    | none => simp [swapWusdtForWeth]
    | some a =>
      by_cases hop : isOperator s.wusdt caller engine now
      · simp [swapWusdtForWeth, confidentialTransferFrom, hop]
      · simp [swapWusdtForWeth, confidentialTransferFrom, hop]

/-- Witness for `C5_atomicity`: at time 500 the operator grant of
`sampleForward` (expiry 100) has expired, the forward swap reverts, and the
user's balances are untouched. -/
theorem C5_atomicity_witness :
    swapWethForWusdt sampleForward 2 1 500 (some 3) = none ∧
    (callWethForWusdt sampleForward 2 1 500 (some 3)).1.weth.bal 1
      = sampleForward.weth.bal 1 ∧
    (callWethForWusdt sampleForward 2 1 500 (some 3)).1.wusdt.bal 1
      = sampleForward.wusdt.bal 1 := by
  have h : swapWethForWusdt sampleForward 2 1 500 (some 3) = none := rfl
  exact ⟨h, (C5_atomicity sampleForward 2 1 500 (some 3)).1 h 1⟩

/-- **C6** (refutation evidence): the interleaving `racingClicks`, in which
every click passes the Decrypt button's `disabled` guard, reaches a state
with two `userDecrypt` requests simultaneously in flight for the same
(account, wETH) pair: the single shared `isDecrypting` flag was overwritten
by the interleaved wUSDT session, so the wETH button reported not-busy
while the first wETH request was still outstanding. -/
theorem C6_two_in_flight :
    (runUI initUI racingClicks).map (fun ui => inFlightCount ui .weth)
      = some 2 := by decide

/-- **C7**: with wallet and instance connected, a missing or all-zero
stored handle makes `decryptBalance` fail closed: the "not available"
status is set and the call returns with no external action at all — no
busy-flag flip, no keypair generation, no EIP-712 payload, no signature
request, no `userDecrypt` — leaving the busy flag and the decrypted
balances untouched. -/
theorem C7_fail_closed (env : DecryptEnv) (st : AppState) (token : TokenKey)
    (hconn : env.connected = true)
    (hzero : st.encryptedBalances token = none ∨
             st.encryptedBalances token = some ZERO_HANDLE) :
    (decryptBalance env st token).2 = [] ∧
    (decryptBalance env st token).1.statusMessage
      = some "Encrypted balance not available yet." ∧
    (decryptBalance env st token).1.isDecrypting = st.isDecrypting ∧
    (decryptBalance env st token).1.decryptedBalances = st.decryptedBalances := by
  rcases hzero with h | h <;> simp [decryptBalance, hconn, h]

/-- Witness for `C7_fail_closed`: the all-zero wETH handle of
`zeroHandleState`. -/
theorem C7_fail_closed_witness :
    (decryptBalance sampleEnv zeroHandleState .weth).2 = [] ∧
    (decryptBalance sampleEnv zeroHandleState .weth).1.statusMessage
      = some "Encrypted balance not available yet." ∧
    (decryptBalance sampleEnv zeroHandleState .weth).1.isDecrypting
      = zeroHandleState.isDecrypting ∧
    (decryptBalance sampleEnv zeroHandleState .weth).1.decryptedBalances
      = zeroHandleState.decryptedBalances :=
  C7_fail_closed sampleEnv zeroHandleState .weth rfl (Or.inr rfl)

/-- **C8**: the constructor reverts with `InvalidTokenAddress` exactly when
either token address argument is the null address — before any contract
state exists — and otherwise records both addresses as the immutable token
references. -/
theorem C8_constructor_guard (wethAddress wusdtAddress : Nat) :
    ((wethAddress = 0 ∨ wusdtAddress = 0) →
      constructorSwap wethAddress wusdtAddress = .error .InvalidTokenAddress) ∧
    (wethAddress ≠ 0 → wusdtAddress ≠ 0 →
      constructorSwap wethAddress wusdtAddress
        = .ok { wETH := wethAddress, wUSDT := wusdtAddress }) := by
  constructor
  · intro h
    simp [constructorSwap, h]
  · intro h1 h2
    simp [constructorSwap, h1, h2]

/-- Witness for `C8_constructor_guard`: a null wETH address is rejected, a
non-null pair is stored. -/
theorem C8_constructor_guard_witness :
    constructorSwap 0 5 = .error .InvalidTokenAddress ∧
    constructorSwap 3 5 = .ok { wETH := 3, wUSDT := 5 } :=
  ⟨(C8_constructor_guard 0 5).1 (Or.inl rfl),
   (C8_constructor_guard 3 5).2 (by decide) (by decide)⟩

/-- **C9** (counterexample): at a concrete call time the payload carries
the default duration 10, but its unit (days — the SDK's `durationDays`)
differs from the unit of the session start time it carries (Unix seconds,
`Math.floor(Date.now() / 1000)`), refuting "the same unit as the start
time". -/
theorem C9_counterexample :
    ¬ ((buildDecryptAuthPayload 1 2 1700000000000).durationDays = 10 ∧
       (buildDecryptAuthPayload 1 2 1700000000000).durationUnit
         = (buildDecryptAuthPayload 1 2 1700000000000).startTimeUnit) := by
  decide

/-- **C9** (amended): the authorization payload carries a validity duration
with policy default 10 denominated in days, while the session start time it
carries is a Unix timestamp in seconds. -/
theorem C9_payload_duration (publicKey contractAddress nowMillis : Nat) :
    (buildDecryptAuthPayload publicKey contractAddress nowMillis).durationDays
      = 10 ∧
    (buildDecryptAuthPayload publicKey contractAddress nowMillis).durationUnit
      = .days ∧
    (buildDecryptAuthPayload publicKey contractAddress nowMillis).startTimeUnit
      = .seconds ∧
    (buildDecryptAuthPayload publicKey contractAddress nowMillis).startTimeStamp
      = nowMillis / 1000 :=
  ⟨rfl, rfl, rfl, rfl⟩

/-- **C10**: after every successful `refreshOnChainData` both decrypted
balances are reset to `null` and render as the masked placeholder `***`;
a previously revealed cleartext balance never persists across a refresh. -/
theorem C10_refresh_masks (fetched : Option ChainData) (d : ChainData)
    (st : AppState) (h : fetched = some d) :
    (∀ t, (refreshOnChainData fetched st).decryptedBalances t = none) ∧
    (∀ t, formatClear ((refreshOnChainData fetched st).decryptedBalances t)
      = "***") := by
  subst h
  exact ⟨fun t => rfl, fun t => rfl⟩

/-- Witness for `C10_refresh_masks`: the wUSDT balance of `zeroHandleState`
was revealed (`some 7`) and is masked again after a successful refresh. -/
theorem C10_refresh_masks_witness :
    formatClear
        ((refreshOnChainData (some sampleChainData) zeroHandleState).decryptedBalances .wusdt)
      = "***" ∧
    (refreshOnChainData (some sampleChainData) zeroHandleState).decryptedBalances .wusdt
      = none ∧
    zeroHandleState.decryptedBalances .wusdt = some 7 :=
  ⟨(C10_refresh_masks (some sampleChainData) sampleChainData zeroHandleState rfl).2 .wusdt,
   (C10_refresh_masks (some sampleChainData) sampleChainData zeroHandleState rfl).1 .wusdt,
   rfl⟩

end OpaqueDEX
